import Mathlib

/-!
# Verification of the Orders page hybrid search/pagination cache

Shallow embedding of the `Orders` component (`fetchOrders`, the search
debouncer, the single-slot result cache and the scope-key function) and of
the summary aggregation it performs, together with proofs of the spec's
testable properties.

Modelling conventions:
* JavaScript numbers that may be `undefined`/`NaN` are modelled as
  `Option ℚ`: `none` stands for a NaN-poisoned (or undefined) value and
  `some q` for the real number `q`.  Addition follows JS semantics:
  adding `undefined`/NaN to anything yields NaN (`jsAdd`).
* Record fields read through optional chaining (`sale.orderNumber?.…`)
  are modelled as `Option String`; `none` models a missing/null field.
* `jsTrim`/`jsToLower` model the JS string operations `trim`/
  `toLowerCase` (identical on the ASCII data exercised here);
  `String.length` counts characters where JS counts UTF-16 units, the
  same thing on this data.
* The network is a pure oracle `net : ApiRequest → NetResult`; each
  orchestration cycle performs at most one call.  A thrown transport
  error is `NetResult.thrown`, a `success: false` body is
  `ApiResponse.failure`.
-/

/-- The `Sale` record, restricted to the fields the orchestrator reads:
the four searchable string fields (each read through optional chaining in
the filter, hence `Option String`) and the numeric `total` used by the
summary reduction (`Option ℚ`, `none` modelling a missing value on a
malformed record; the declared interface types it as a plain number). -/
structure Sale where
  orderNumber : Option String
  customerName : Option String
  createdBy : Option String
  paymentMethod : Option String
  total : Option ℚ
deriving DecidableEq

/-- The summary state `{ totalSales, totalOrders, avgOrderValue }`. -/
structure OrdersSummary where
  totalSales : Option ℚ
  totalOrders : ℕ
  avgOrderValue : Option ℚ
deriving DecidableEq

/-- The zero summary `{ totalSales: 0, totalOrders: 0, avgOrderValue: 0 }`. -/
def zeroSummary : OrdersSummary :=
  { totalSales := some 0, totalOrders := 0, avgOrderValue := some 0 }

/-- JS addition on possibly-NaN numbers: NaN absorbs. -/
def jsAdd : Option ℚ → Option ℚ → Option ℚ
  | some a, some b => some (a + b)
  | _, _ => none

/-- The reduction `filteredSales.reduce((sum, s) => sum + s.total, 0)`. -/
def totalSalesOf (sales : List Sale) : Option ℚ :=
  sales.foldl (fun sum s => jsAdd sum s.total) (some 0)

/-- The plain rational sum of the `total` fields, missing values read
as `0`; used to state what `totalSalesOf` computes on well-formed
lists. -/
def sumTotals (sales : List Sale) : ℚ :=
  (sales.map (fun s => s.total.getD 0)).sum

/-- JS `s.trim()`: strip leading and trailing whitespace.  (Defined over
the char list so that it evaluates by kernel reduction; core
`String.trim` is byte-position based and does not.) -/
def jsTrim (s : String) : String :=
  String.mk
    (((s.toList.dropWhile Char.isWhitespace).reverse.dropWhile
        Char.isWhitespace).reverse)

/-- JS `s.toLowerCase()` on the ASCII data this page handles. -/
def jsToLower (s : String) : String :=
  String.mk (s.toList.map Char.toLower)

/-- JS `haystack.includes(needle)` on char lists: substring test. -/
def listIncludes (needle : List Char) : List Char → Bool
  | [] => needle.isEmpty
  | c :: cs => needle.isPrefixOf (c :: cs) || listIncludes needle cs

/-- The test `field?.toLowerCase().includes(searchLower)`: a missing field never
matches. -/
def optIncludes (field : Option String) (searchLower : String) : Bool :=
  match field with
  | some v => listIncludes searchLower.toList (jsToLower v).toList
  | none => false

/-- The predicate of the search filter (lines 134–139 of the source):
case-insensitive substring match of `searchLower` against the four
searchable fields, logical OR. -/
def matchesSearch (searchLower : String) (sale : Sale) : Bool :=
  optIncludes sale.orderNumber searchLower ||
  optIncludes sale.customerName searchLower ||
  optIncludes sale.createdBy searchLower ||
  optIncludes sale.paymentMethod searchLower

/-- The filter `(allSalesCacheRef.current || []).filter(...)` with
`searchLower = term.toLowerCase()`. -/
def searchFilter (term : String) (sales : List Sale) : List Sale :=
  sales.filter (fun sale => matchesSearch (jsToLower term) sale)

/-- The scope key
`` `${filterStatus}|${filterPaymentMethod}|${dateFrom}|${dateTo}|${filterCustomer || ''}` ``.
(`s || ''` is the identity on strings: the only falsy string is `''`
itself.) -/
def scopeKey (filterStatus filterPaymentMethod dateFrom dateTo
    filterCustomer : String) : String :=
  filterStatus ++ "|" ++ filterPaymentMethod ++ "|" ++ dateFrom ++ "|" ++
    dateTo ++ "|" ++ filterCustomer

/-- Decimal value of a digit list (big-endian), for `parseIntJs`. -/
def digitsVal (cs : List Char) : ℕ :=
  cs.foldl (fun n c => n * 10 + (c.toNat - '0'.toNat)) 0

/-- JS `parseInt` restricted to the decimal inputs this page feeds it
(an optional sign followed by digits; `none` models NaN). -/
def parseIntJs (s : String) : Option Int :=
  let cs := (s.toList).dropWhile (fun c => c = ' ')
  let signAndRest : Int × List Char :=
    match cs with
    | '-' :: r => (-1, r)
    | '+' :: r => (1, r)
    | r => (1, r)
  let ds := signAndRest.2.takeWhile Char.isDigit
  if ds = [] then none else some (signAndRest.1 * (digitsVal ds : Int))

/-- The parameter object passed to `salesApi.getAll`. -/
structure ApiRequest where
  status : Option String
  customerId : Option (Option Int)
  dateFrom : Option String
  dateTo : Option String
  paymentMethod : Option String
  limit : ℕ
  page : ℕ
deriving DecidableEq

/-- The body `response.data`, with optional chaining collapsed:
`paginationTotalPages` stands for `pagination?.totalPages`. -/
structure ApiData where
  sales : Option (List Sale)
  paginationTotalPages : Option ℕ
  summary : Option OrdersSummary
deriving DecidableEq

/-- A resolved service response: `{ success: true, data }` or
`{ success: false, message }`. -/
inductive ApiResponse where
  | success (data : ApiData)
  | failure (message : String)
deriving DecidableEq

/-- Outcome of `await salesApi.getAll(...)`: a resolved response, or a
thrown transport error (`some msg` when the thrown value is an `Error`
carrying a message, `none` otherwise). -/
inductive NetResult where
  | ok (response : ApiResponse)
  | thrown (message : Option String)
deriving DecidableEq

/-- A toast notification as issued by `toast({...})`. -/
structure Toast where
  title : String
  description : String
  variant : String
deriving DecidableEq

/-- The toast built in the catch block:
`error instanceof Error ? error.message : "Failed to load orders data"`. -/
def errorToast (message : Option String) : Toast :=
  { title := "Error",
    description := message.getD "Failed to load orders data",
    variant := "destructive" }

/-- The component state touched by the orchestrator. -/
structure OrdersState where
  orders : List Sale
  loading : Bool
  currentPage : ℕ
  totalPages : ℕ
  debouncedSearchTerm : String
  filterStatus : String
  filterCustomer : String
  filterPaymentMethod : String
  dateFrom : String
  dateTo : String
  summary : OrdersSummary
  allSalesCache : List Sale
  cacheKey : String
deriving DecidableEq

/-- The `useState`/`useRef` initial values. -/
def initialOrdersState : OrdersState :=
  { orders := [], loading := true, currentPage := 1, totalPages := 1,
    debouncedSearchTerm := "", filterStatus := "all", filterCustomer := "",
    filterPaymentMethod := "all", dateFrom := "", dateTo := "",
    summary :=
      { totalSales := some 0, totalOrders := 0, avgOrderValue := some 0 },
    allSalesCache := [], cacheKey := "" }

/-- The `currentKey` value computed at the top of `fetchOrders`. -/
def currentKeyOf (s : OrdersState) : String :=
  scopeKey s.filterStatus s.filterPaymentMethod s.dateFrom s.dateTo
    s.filterCustomer

/-- The fixed page size `ITEMS_PER_PAGE = 20`. -/
def ITEMS_PER_PAGE : ℕ := 20

/-- The request `{ ...baseParams, limit, page }`: the scope filters (each included
only when its state passes the JS truthiness test of lines 100–104)
together with the pagination parameters. -/
def baseRequest (s : OrdersState) (limit page : ℕ) : ApiRequest :=
  { status := if s.filterStatus ≠ "all" then some s.filterStatus else none,
    customerId :=
      if s.filterCustomer ≠ "" then some (parseIntJs s.filterCustomer)
      else none,
    dateFrom := if s.dateFrom ≠ "" then some s.dateFrom else none,
    dateTo := if s.dateTo ≠ "" then some s.dateTo else none,
    paymentMethod :=
      if s.filterPaymentMethod ≠ "all" then some s.filterPaymentMethod
      else none,
    limit := limit, page := page }

/-- What one `fetchOrders` cycle produced: the new state, the network
requests it issued (at most one) in order, the toasts it emitted, and
whether the loading indicator was shown (`setLoading(true)`). -/
structure FetchResult where
  state : OrdersState
  requests : List ApiRequest
  toasts : List Toast
  loadingShown : Bool
deriving DecidableEq

/-- The default `x || 1` on the optional `pagination?.totalPages` (JS `||` also
replaces a present `0`, which is falsy). -/
def jsOrOne : Option ℕ → ℕ
  | none => 1
  | some n => if n = 0 then 1 else n

/-- Lines 132–148 of the source: filter the cache with the settled term,
slice the current page window, recompute `totalPages` as
`Math.max(1, Math.ceil(len / ITEMS_PER_PAGE))` and rebuild the summary by
reducing over the whole filtered list.  `s` already holds the cache the
code reads back from the ref; `reqs`/`shown` record this cycle's
effects. -/
def finishSearch (s : OrdersState) (term : String) (reqs : List ApiRequest)
    (shown : Bool) : FetchResult :=
  let filteredSales := searchFilter term s.allSalesCache
  let startIndex := (s.currentPage - 1) * ITEMS_PER_PAGE
  let paginatedSales := (filteredSales.drop startIndex).take ITEMS_PER_PAGE
  let totalSales := totalSalesOf filteredSales
  { state := { s with
      orders := paginatedSales,
      totalPages :=
        max 1 ((filteredSales.length + ITEMS_PER_PAGE - 1) / ITEMS_PER_PAGE),
      summary :=
        { totalSales := totalSales,
          totalOrders := filteredSales.length,
          avgOrderValue :=
            if filteredSales.length = 0 then some 0
            else totalSales.map (fun t => t / (filteredSales.length : ℚ)) },
      loading := if shown then false else s.loading },
    requests := reqs, toasts := [], loadingShown := shown }

/-- The `fetchOrders` orchestration cycle (lines 86–156 of the source),
as a pure transition on `OrdersState` against a network oracle.  The
`catch` block is modelled explicitly on the `thrown` branches (toast,
no data overwrite); the `finally` block is the conditional
`setLoading(false)` folded into each branch. -/
def fetchOrders (s : OrdersState) (net : ApiRequest → NetResult) :
    FetchResult :=
  let term := jsTrim s.debouncedSearchTerm
  let isSearching := 2 ≤ term.length
  let currentKey := currentKeyOf s
  if ¬ isSearching then
    -- server-pagination mode: one page straight from the service
    match net (baseRequest s ITEMS_PER_PAGE s.currentPage) with
    | NetResult.ok (ApiResponse.success data) =>
        { state := { s with
            orders := data.sales.getD [],
            totalPages := jsOrOne data.paginationTotalPages,
            summary := data.summary.getD zeroSummary,
            allSalesCache := [],
            cacheKey := currentKey,
            loading := false },
          requests := [baseRequest s ITEMS_PER_PAGE s.currentPage],
          toasts := [], loadingShown := true }
    | NetResult.ok (ApiResponse.failure _) =>
        -- `if (response.success)` is skipped; the cycle just returns
        { state := { s with loading := false },
          requests := [baseRequest s ITEMS_PER_PAGE s.currentPage],
          toasts := [], loadingShown := true }
    | NetResult.thrown m =>
        { state := { s with loading := false },
          requests := [baseRequest s ITEMS_PER_PAGE s.currentPage],
          toasts := [errorToast m], loadingShown := true }
  else if s.cacheKey ≠ currentKey ∨ s.allSalesCache = [] then
    -- search mode, cache miss: fetch the whole scope, then filter locally
    match net (baseRequest s 10000 1) with
    | NetResult.ok (ApiResponse.success data) =>
        finishSearch
          { s with
            allSalesCache := data.sales.getD [],
            cacheKey := currentKey }
          term [baseRequest s 10000 1] true
    | NetResult.ok (ApiResponse.failure _) =>
        -- cache emptied, cache key left as it was
        finishSearch { s with allSalesCache := [] }
          term [baseRequest s 10000 1] true
    | NetResult.thrown m =>
        -- the throw skips the filter/paginate block entirely
        { state := { s with loading := false },
          requests := [baseRequest s 10000 1],
          toasts := [errorToast m], loadingShown := true }
  else
    -- search mode, cache hit: no network, no loading indicator
    finishSearch s term [] false

/-- The debounce timer callback (lines 70–80): when it fires with the
latest raw `searchTerm`, it settles it into `debouncedSearchTerm` and
resets `currentPage` to 1 unless the trimmed length is exactly 1, in
which case nothing is emitted.  Returns the new
`(debouncedSearchTerm, currentPage)` pair. -/
def debounceSettle (searchTerm debouncedSearchTerm : String)
    (currentPage : ℕ) : String × ℕ :=
  let len := (jsTrim searchTerm).length
  if len = 0 ∨ 2 ≤ len then (searchTerm, 1)
  else (debouncedSearchTerm, currentPage)

/-! ## Concrete sample data (used to instantiate the theorems) -/

/-- A well-formed sale matching the search term `"ali"` by customer
name. -/
def saleAlice : Sale :=
  { orderNumber := some "ORD-001", customerName := some "Alice",
    createdBy := some "admin", paymentMethod := some "cash",
    total := some 10 }

/-- A well-formed sale not matching `"ali"`. -/
def saleBob : Sale :=
  { orderNumber := some "ORD-002", customerName := some "Bob",
    createdBy := some "admin", paymentMethod := some "card",
    total := some 30 }

/-- A malformed sale: matches `"ali"` by customer name but its numeric
`total` is missing. -/
def saleNoTotal : Sale :=
  { orderNumber := some "ORD-004", customerName := some "Alima",
    createdBy := some "admin", paymentMethod := some "cash",
    total := none }

/-- Search mode with a valid cache for the current scope (cache hit). -/
def hitState : OrdersState :=
  { initialOrdersState with
    debouncedSearchTerm := "ali",
    allSalesCache := [saleAlice, saleBob],
    cacheKey := currentKeyOf initialOrdersState }

/-- Search mode with an empty cache (cache miss), displaying data from
an earlier cycle. -/
def missState : OrdersState :=
  { initialOrdersState with
    debouncedSearchTerm := "ali",
    orders := [saleBob],
    totalPages := 7,
    summary :=
      { totalSales := some 30, totalOrders := 1, avgOrderValue := some 30 } }

/-- Server-pagination mode (no settled search text), displaying data
from an earlier cycle. -/
def serverState : OrdersState :=
  { initialOrdersState with orders := [saleAlice], totalPages := 3 }

/-- Search mode, cache hit, whose only cached record is malformed. -/
def nanState : OrdersState :=
  { initialOrdersState with
    debouncedSearchTerm := "ali",
    allSalesCache := [saleNoTotal],
    cacheKey := currentKeyOf initialOrdersState }

/-- A network that always throws a non-`Error` value. -/
def netThrownNone : ApiRequest → NetResult :=
  fun _ => NetResult.thrown none

/-- A network that always answers `{ success: false, message }`. -/
def netFailure : ApiRequest → NetResult :=
  fun _ => NetResult.ok (ApiResponse.failure "Request failed")

/-- A complete successful response body. -/
def sampleData : ApiData :=
  { sales := some [saleBob], paginationTotalPages := some 4,
    summary :=
      some { totalSales := some 30, totalOrders := 1,
             avgOrderValue := some 30 } }

/-- A network that always answers success with `sampleData`. -/
def netSuccess : ApiRequest → NetResult :=
  fun _ => NetResult.ok (ApiResponse.success sampleData)

/-- A successful response whose `pagination.totalPages` is present and
equal to `0`, with no summary block. -/
def zeroTotalPagesData : ApiData :=
  { sales := some [saleAlice], paginationTotalPages := some 0,
    summary := none }

/-- A network that always answers success with `zeroTotalPagesData`. -/
def netZeroTotalPages : ApiRequest → NetResult :=
  fun _ => NetResult.ok (ApiResponse.success zeroTotalPagesData)

/-! ## Helper lemmas -/

theorem jsAdd_none_right (a : Option ℚ) : jsAdd a none = none := by
  cases a <;> rfl

theorem jsAdd_none_left (b : Option ℚ) : jsAdd none b = none := by
  cases b <;> rfl

theorem foldl_jsAdd_some (l : List Sale) (q : ℚ)
    (h : ∀ x ∈ l, x.total.isSome = true) :
    l.foldl (fun sum s => jsAdd sum s.total) (some q) =
      some (q + sumTotals l) := by
  induction l generalizing q with
  | nil => simp [sumTotals]
  | cons x xs ih =>
    obtain ⟨v, hv⟩ := Option.isSome_iff_exists.mp (h x (by simp))
    have hxs : ∀ y ∈ xs, y.total.isSome = true := fun y hy => h y (by simp [hy])
    rw [List.foldl_cons, hv,
      show jsAdd (some q) (some v) = some (q + v) from rfl, ih (q + v) hxs]
    simp [sumTotals, hv, add_assoc]

theorem totalSalesOf_eq_sumTotals (l : List Sale)
    (h : ∀ x ∈ l, x.total.isSome = true) :
    totalSalesOf l = some (sumTotals l) := by
  rw [totalSalesOf, foldl_jsAdd_some l 0 h, zero_add]

theorem foldl_jsAdd_none (l : List Sale) :
    l.foldl (fun sum s => jsAdd sum s.total) none = none := by
  induction l with
  | nil => rfl
  | cons x xs ih => simp only [List.foldl_cons, jsAdd_none_left, ih]

theorem foldl_jsAdd_of_mem_none (l : List Sale) (acc : Option ℚ)
    (h : ∃ x ∈ l, x.total = none) :
    l.foldl (fun sum s => jsAdd sum s.total) acc = none := by
  induction l generalizing acc with
  | nil => obtain ⟨x, hx, _⟩ := h; cases hx
  | cons y ys ih =>
    obtain ⟨x, hx, hnone⟩ := h
    rcases List.mem_cons.mp hx with rfl | hmem
    · simp only [List.foldl_cons, hnone, jsAdd_none_right, foldl_jsAdd_none]
    · simp only [List.foldl_cons]
      exact ih _ ⟨x, hmem, hnone⟩

theorem totalSalesOf_eq_none (l : List Sale)
    (h : ∃ x ∈ l, x.total = none) : totalSalesOf l = none :=
  foldl_jsAdd_of_mem_none l (some 0) h

theorem natCeilDiv_eq (n k : ℕ) (hk : 0 < k) :
    (n + k - 1) / k = Nat.ceil ((n : ℚ) / (k : ℚ)) := by
  have hkq : (0 : ℚ) < (k : ℚ) := by exact_mod_cast hk
  apply le_antisymm
  · have h1 : (n : ℚ) / (k : ℚ) ≤ (Nat.ceil ((n : ℚ) / (k : ℚ)) : ℚ) :=
      Nat.le_ceil _
    have h2 : (n : ℚ) ≤ (Nat.ceil ((n : ℚ) / (k : ℚ)) : ℚ) * (k : ℚ) :=
      (div_le_iff₀ hkq).mp h1
    have h3 : n ≤ Nat.ceil ((n : ℚ) / (k : ℚ)) * k := by exact_mod_cast h2
    rw [Nat.div_le_iff_le_mul_add_pred hk, Nat.mul_comm,
      show n + k - 1 = n + (k - 1) by omega]
    exact Nat.add_le_add_right h3 (k - 1)
  · rw [Nat.ceil_le, div_le_iff₀ hkq]
    have h4 : n ≤ (n + k - 1) / k * k := by
      have h5 := Nat.div_add_mod (n + k - 1) k
      have h6 : (n + k - 1) % k < k := Nat.mod_lt _ hk
      rw [Nat.mul_comm]
      generalize hm : k * ((n + k - 1) / k) = m at h5 ⊢
      generalize hr : (n + k - 1) % k = r at h5 h6
      omega
    exact_mod_cast h4

theorem jsOrOne_pos (o : Option ℕ) : 1 ≤ jsOrOne o := by
  rcases o with _ | n
  · exact le_refl 1
  · simp only [jsOrOne]
    split <;> omega

theorem append_sep_inj (x u : List Char) :
    ∀ (y v : List Char), '|' ∉ x → '|' ∉ y →
      x ++ '|' :: u = y ++ '|' :: v → x = y ∧ u = v := by
  induction x with
  | nil =>
    intro y v _ hy h
    cases y with
    | nil => simpa using h
    | cons b ys =>
      simp only [List.nil_append, List.cons_append] at h
      injection h with h1 h2
      subst h1
      exact absurd (List.mem_cons_self _ _) hy
  | cons a xs ih =>
    intro y v hx hy h
    cases y with
    | nil =>
      simp only [List.cons_append, List.nil_append] at h
      injection h with h1 h2
      subst h1
      exact absurd (List.mem_cons_self _ _) hx
    | cons b ys =>
      simp only [List.cons_append] at h
      injection h with h1 h2
      subst h1
      have hx' : '|' ∉ xs := fun hm => hx (List.mem_cons_of_mem _ hm)
      have hy' : '|' ∉ ys := fun hm => hy (List.mem_cons_of_mem _ hm)
      obtain ⟨hxy, huv⟩ := ih ys v hx' hy' h2
      exact ⟨by rw [hxy], huv⟩

theorem fetchOrders_server_success (s : OrdersState)
    (net : ApiRequest → NetResult) (data : ApiData)
    (h : (jsTrim s.debouncedSearchTerm).length < 2)
    (hnet : net (baseRequest s ITEMS_PER_PAGE s.currentPage) =
      NetResult.ok (ApiResponse.success data)) :
    fetchOrders s net =
      { state := { s with
          orders := data.sales.getD [],
          totalPages := jsOrOne data.paginationTotalPages,
          summary := data.summary.getD zeroSummary,
          allSalesCache := [],
          cacheKey := currentKeyOf s,
          loading := false },
        requests := [baseRequest s ITEMS_PER_PAGE s.currentPage],
        toasts := [], loadingShown := true } := by
  simp only [fetchOrders]
  rw [if_pos (by omega), hnet]

theorem fetchOrders_server_failure (s : OrdersState)
    (net : ApiRequest → NetResult) (msg : String)
    (h : (jsTrim s.debouncedSearchTerm).length < 2)
    (hnet : net (baseRequest s ITEMS_PER_PAGE s.currentPage) =
      NetResult.ok (ApiResponse.failure msg)) :
    fetchOrders s net =
      { state := { s with loading := false },
        requests := [baseRequest s ITEMS_PER_PAGE s.currentPage],
        toasts := [], loadingShown := true } := by
  simp only [fetchOrders]
  rw [if_pos (by omega), hnet]

theorem fetchOrders_server_thrown (s : OrdersState)
    (net : ApiRequest → NetResult) (m : Option String)
    (h : (jsTrim s.debouncedSearchTerm).length < 2)
    (hnet : net (baseRequest s ITEMS_PER_PAGE s.currentPage) =
      NetResult.thrown m) :
    fetchOrders s net =
      { state := { s with loading := false },
        requests := [baseRequest s ITEMS_PER_PAGE s.currentPage],
        toasts := [errorToast m], loadingShown := true } := by
  simp only [fetchOrders]
  rw [if_pos (by omega), hnet]

theorem fetchOrders_search_miss_success (s : OrdersState)
    (net : ApiRequest → NetResult) (data : ApiData)
    (h2 : 2 ≤ (jsTrim s.debouncedSearchTerm).length)
    (hmiss : s.cacheKey ≠ currentKeyOf s ∨ s.allSalesCache = [])
    (hnet : net (baseRequest s 10000 1) =
      NetResult.ok (ApiResponse.success data)) :
    fetchOrders s net =
      finishSearch
        { s with
          allSalesCache := data.sales.getD [],
          cacheKey := currentKeyOf s }
        (jsTrim s.debouncedSearchTerm) [baseRequest s 10000 1] true := by
  simp only [fetchOrders]
  rw [if_neg (not_not_intro h2), if_pos hmiss, hnet]

theorem fetchOrders_search_miss_failure (s : OrdersState)
    (net : ApiRequest → NetResult) (msg : String)
    (h2 : 2 ≤ (jsTrim s.debouncedSearchTerm).length)
    (hmiss : s.cacheKey ≠ currentKeyOf s ∨ s.allSalesCache = [])
    (hnet : net (baseRequest s 10000 1) =
      NetResult.ok (ApiResponse.failure msg)) :
    fetchOrders s net =
      finishSearch { s with allSalesCache := [] }
        (jsTrim s.debouncedSearchTerm) [baseRequest s 10000 1] true := by
  simp only [fetchOrders]
  rw [if_neg (not_not_intro h2), if_pos hmiss, hnet]

theorem fetchOrders_search_miss_thrown (s : OrdersState)
    (net : ApiRequest → NetResult) (m : Option String)
    (h2 : 2 ≤ (jsTrim s.debouncedSearchTerm).length)
    (hmiss : s.cacheKey ≠ currentKeyOf s ∨ s.allSalesCache = [])
    (hnet : net (baseRequest s 10000 1) = NetResult.thrown m) :
    fetchOrders s net =
      { state := { s with loading := false },
        requests := [baseRequest s 10000 1],
        toasts := [errorToast m], loadingShown := true } := by
  simp only [fetchOrders]
  rw [if_neg (not_not_intro h2), if_pos hmiss, hnet]

theorem fetchOrders_cache_hit (s : OrdersState)
    (net : ApiRequest → NetResult)
    (h2 : 2 ≤ (jsTrim s.debouncedSearchTerm).length)
    (hkey : s.cacheKey = currentKeyOf s)
    (hne : s.allSalesCache ≠ []) :
    fetchOrders s net =
      finishSearch s (jsTrim s.debouncedSearchTerm) [] false := by
  simp only [fetchOrders]
  rw [if_neg (not_not_intro h2),
    if_neg (not_or.mpr ⟨not_not_intro hkey, hne⟩)]

theorem finishSearch_summary (s : OrdersState) (term : String)
    (reqs : List ApiRequest) (shown : Bool)
    (hwf : ∀ x ∈ s.allSalesCache, x.total.isSome = true) :
    (finishSearch s term reqs shown).state.summary.totalSales =
      some (sumTotals (searchFilter term s.allSalesCache)) ∧
    (finishSearch s term reqs shown).state.summary.totalOrders =
      (searchFilter term s.allSalesCache).length ∧
    (finishSearch s term reqs shown).state.summary.avgOrderValue =
      (if (searchFilter term s.allSalesCache).length = 0 then some 0
       else some (sumTotals (searchFilter term s.allSalesCache) /
         ((searchFilter term s.allSalesCache).length : ℚ))) := by
  have hwff : ∀ x ∈ searchFilter term s.allSalesCache, x.total.isSome = true :=
    fun x hx => hwf x (List.mem_filter.mp hx).1
  have ht := totalSalesOf_eq_sumTotals _ hwff
  refine ⟨?_, ?_, ?_⟩ <;> simp only [finishSearch, ht]
  split <;> simp

/-! ## Claim theorems -/

/-- C5: the debouncer's settle callback never settles a raw value of
trimmed length exactly 1 (it leaves the settled term and the page
unchanged, hence also the searching/not-searching mode), settles values
of trimmed length 0 or ≥ 2, and every settle resets the page to 1. -/
theorem debounce_gate (raw debounced : String) (page : ℕ) :
    ((jsTrim raw).length = 1 →
      debounceSettle raw debounced page = (debounced, page)) ∧
    (((jsTrim raw).length = 0 ∨ 2 ≤ (jsTrim raw).length) →
      debounceSettle raw debounced page = (raw, 1)) := by
  constructor
  · intro h1
    simp only [debounceSettle]
    rw [if_neg (by omega)]
  · intro h2
    simp only [debounceSettle]
    rw [if_pos h2]

/-- Witness for `debounce_gate` at concrete inputs: a one-character burst
is suppressed, a two-character value settles and resets the page. -/
theorem debounce_gate_witness :
    (jsTrim "a").length = 1 ∧
    debounceSettle "a" "prev" 5 = ("prev", 5) ∧
    debounceSettle "ab" "prev" 5 = ("ab", 1) :=
  ⟨by decide, (debounce_gate "a" "prev" 5).1 (by decide),
    (debounce_gate "ab" "prev" 5).2 (by decide)⟩

/-- C7 counterexample: the scope-key function is not injective on all
filter scopes — a `|` inside a field value collides with the separator.
The scopes `{status: "a|b", paymentMethod: "c"}` and
`{status: "a", paymentMethod: "b|c"}` are distinct but share a key. -/
theorem scopeKey_collision :
    scopeKey "a|b" "c" "" "" "" = scopeKey "a" "b|c" "" "" "" ∧
    ("a|b" : String) ≠ "a" := by decide

/-- C7 (amended): the scope key is a pure function of the filter scope,
and on scopes whose status/payment-method/date fields do not contain the
separator character `'|'`, two scopes have equal keys iff they are
equal.  (The last component needs no side condition: after the four
separators are peeled off, whatever remains is the customer field.) -/
theorem scopeKey_inj (a b c d e a' b' c' d' e' : String)
    (ha : '|' ∉ a.data) (hb : '|' ∉ b.data) (hc : '|' ∉ c.data)
    (hd : '|' ∉ d.data) (ha' : '|' ∉ a'.data) (hb' : '|' ∉ b'.data)
    (hc' : '|' ∉ c'.data) (hd' : '|' ∉ d'.data) :
    scopeKey a b c d e = scopeKey a' b' c' d' e' ↔
      (a = a' ∧ b = b' ∧ c = c' ∧ d = d' ∧ e = e') := by
  constructor
  · intro h
    have hl := congrArg String.data h
    have hpipe : ("|" : String).data = ['|'] := rfl
    simp only [scopeKey, String.data_append, hpipe, List.append_assoc,
      List.singleton_append] at hl
    obtain ⟨ha1, h2⟩ := append_sep_inj a.data _ a'.data _ ha ha' hl
    obtain ⟨hb1, h3⟩ := append_sep_inj b.data _ b'.data _ hb hb' h2
    obtain ⟨hc1, h4⟩ := append_sep_inj c.data _ c'.data _ hc hc' h3
    obtain ⟨hd1, he1⟩ := append_sep_inj d.data _ d'.data _ hd hd' h4
    exact ⟨String.ext ha1, String.ext hb1, String.ext hc1,
      String.ext hd1, String.ext he1⟩
  · rintro ⟨rfl, rfl, rfl, rfl, rfl⟩
    rfl

/-- Witness for `scopeKey_inj`: two realistic scopes differing only in
status get different keys. -/
theorem scopeKey_inj_witness :
    scopeKey "all" "cash" "2024-01-01" "2024-02-01" "3" ≠
      scopeKey "pending" "cash" "2024-01-01" "2024-02-01" "3" :=
  fun h => absurd
    ((scopeKey_inj "all" "cash" "2024-01-01" "2024-02-01" "3"
        "pending" "cash" "2024-01-01" "2024-02-01" "3"
        (by decide) (by decide) (by decide) (by decide)
        (by decide) (by decide) (by decide) (by decide)).mp h).1
    (by decide)

/-- C8 counterexample: a cached record that matches the search but has a
missing numeric `total` does not contribute zero — it NaN-poisons
(`none`) the whole `totalSales` and `avgOrderValue` of the displayed
summary. -/
theorem missing_total_counterexample :
    saleNoTotal.total = none ∧
    searchFilter (jsTrim nanState.debouncedSearchTerm) nanState.allSalesCache
      = [saleNoTotal] ∧
    (fetchOrders nanState netThrownNone).state.summary.totalSales = none ∧
    (fetchOrders nanState netThrownNone).state.summary.avgOrderValue
      = none := by
  decide

/-- C8 (amended): the in-memory filter/paginate/aggregate operations are
total (they are functions of this embedding and never throw); a record
whose searchable string fields are all missing simply never matches; but
a record with a missing numeric `total` makes the reduced `totalSales`
NaN (`none`) rather than contributing zero. -/
theorem malformed_records_degrade :
    (∀ t : String, ∀ sale : Sale,
      sale.orderNumber = none → sale.customerName = none →
      sale.createdBy = none → sale.paymentMethod = none →
      matchesSearch t sale = false) ∧
    (∀ l : List Sale, (∃ x ∈ l, x.total = none) → totalSalesOf l = none) := by
  constructor
  · intro t sale h1 h2 h3 h4
    simp [matchesSearch, optIncludes, h1, h2, h3, h4]
  · intro l h
    exact totalSalesOf_eq_none l h

/-- Witness for `malformed_records_degrade` at concrete records. -/
theorem malformed_records_degrade_witness :
    matchesSearch "ab"
      { orderNumber := none, customerName := none, createdBy := none,
        paymentMethod := none, total := some 5 } = false ∧
    totalSalesOf [saleNoTotal] = none :=
  ⟨malformed_records_degrade.1 "ab" _ rfl rfl rfl rfl,
    malformed_records_degrade.2 [saleNoTotal]
      ⟨saleNoTotal, by decide, by decide⟩⟩

/-- C9: the view-model stays well-formed across every orchestration
cycle: `records`/`summary` are total values of the embedding by
construction (never undefined), and `totalPages ≥ 1` is preserved by
`fetchOrders` in every mode and on every network outcome; it holds in
the initial state, so it holds after every cycle. -/
theorem view_model_totalPages_pos (s : OrdersState)
    (net : ApiRequest → NetResult) (h : 1 ≤ s.totalPages) :
    1 ≤ (fetchOrders s net).state.totalPages ∧
    initialOrdersState.totalPages = 1 := by
  refine ⟨?_, rfl⟩
  simp only [fetchOrders]
  split
  · split
    · exact jsOrOne_pos _
    · exact h
    · exact h
  · split
    · split
      · exact le_max_left 1 _
      · exact le_max_left 1 _
      · exact h
    · exact le_max_left 1 _

/-- Witness for `view_model_totalPages_pos`: a failed server-mode
refresh keeps `totalPages ≥ 1`. -/
theorem view_model_totalPages_pos_witness :
    1 ≤ serverState.totalPages ∧
    1 ≤ (fetchOrders serverState netFailure).state.totalPages :=
  ⟨by decide,
    (view_model_totalPages_pos serverState netFailure (by decide)).1⟩

/-- C1: in search mode with a valid cached set for the current scope,
the displayed page is the slice `[(page-1)*pageSize, page*pageSize)` of
the cached set filtered by case-insensitive substring match against
order number, customer name, creator and payment method, and
`totalPages = max 1 ⌈filteredCount / pageSize⌉`. -/
theorem search_page_correct (s : OrdersState) (net : ApiRequest → NetResult)
    (h2 : 2 ≤ (jsTrim s.debouncedSearchTerm).length)
    (hkey : s.cacheKey = currentKeyOf s)
    (hne : s.allSalesCache ≠ [])
    (_hpage : 1 ≤ s.currentPage) :
    (fetchOrders s net).state.orders =
      ((searchFilter (jsTrim s.debouncedSearchTerm) s.allSalesCache).drop
        ((s.currentPage - 1) * ITEMS_PER_PAGE)).take ITEMS_PER_PAGE ∧
    (fetchOrders s net).state.totalPages =
      max 1 (Nat.ceil
        (((searchFilter (jsTrim s.debouncedSearchTerm)
            s.allSalesCache).length : ℚ) / (ITEMS_PER_PAGE : ℚ))) := by
  rw [fetchOrders_cache_hit s net h2 hkey hne]
  refine ⟨rfl, ?_⟩
  simp only [finishSearch]
  rw [natCeilDiv_eq _ ITEMS_PER_PAGE (by decide)]

/-- Witness for `search_page_correct` on a two-record cache and the term
`"ali"`. -/
theorem search_page_correct_witness :
    2 ≤ (jsTrim hitState.debouncedSearchTerm).length ∧
    ((fetchOrders hitState netThrownNone).state.orders =
      ((searchFilter (jsTrim hitState.debouncedSearchTerm)
        hitState.allSalesCache).drop
        ((hitState.currentPage - 1) * ITEMS_PER_PAGE)).take ITEMS_PER_PAGE ∧
    (fetchOrders hitState netThrownNone).state.totalPages =
      max 1 (Nat.ceil
        (((searchFilter (jsTrim hitState.debouncedSearchTerm)
            hitState.allSalesCache).length : ℚ) / (ITEMS_PER_PAGE : ℚ)))) :=
  ⟨by decide, search_page_correct hitState netThrownNone
    (by decide) (by decide) (by decide) (by decide)⟩

/-- C10: on a search-mode cache hit, no network request is issued, the
loading flag is never set, the cache contents and key — and every other
piece of state except the displayed records, total pages and summary —
are left unchanged, and records/summary are recomputed from the
cache. -/
theorem cache_hit_frame (s : OrdersState) (net : ApiRequest → NetResult)
    (h2 : 2 ≤ (jsTrim s.debouncedSearchTerm).length)
    (hkey : s.cacheKey = currentKeyOf s)
    (hne : s.allSalesCache ≠ []) :
    (fetchOrders s net).requests = [] ∧
    (fetchOrders s net).loadingShown = false ∧
    (fetchOrders s net).state.loading = s.loading ∧
    (fetchOrders s net).state.allSalesCache = s.allSalesCache ∧
    (fetchOrders s net).state.cacheKey = s.cacheKey ∧
    (fetchOrders s net).state.currentPage = s.currentPage ∧
    (fetchOrders s net).state.debouncedSearchTerm = s.debouncedSearchTerm ∧
    (fetchOrders s net).state.filterStatus = s.filterStatus ∧
    (fetchOrders s net).state.filterCustomer = s.filterCustomer ∧
    (fetchOrders s net).state.filterPaymentMethod = s.filterPaymentMethod ∧
    (fetchOrders s net).state.dateFrom = s.dateFrom ∧
    (fetchOrders s net).state.dateTo = s.dateTo ∧
    (fetchOrders s net).state.orders =
      ((searchFilter (jsTrim s.debouncedSearchTerm) s.allSalesCache).drop
        ((s.currentPage - 1) * ITEMS_PER_PAGE)).take ITEMS_PER_PAGE ∧
    (fetchOrders s net).state.summary.totalOrders =
      (searchFilter (jsTrim s.debouncedSearchTerm) s.allSalesCache).length := by
  rw [fetchOrders_cache_hit s net h2 hkey hne]
  exact ⟨rfl, rfl, rfl, rfl, rfl, rfl, rfl, rfl, rfl, rfl, rfl, rfl,
    rfl, rfl⟩

/-- Witness for `cache_hit_frame` on the concrete cache-hit state. -/
theorem cache_hit_frame_witness :
    (fetchOrders hitState netThrownNone).requests = [] ∧
    (fetchOrders hitState netThrownNone).loadingShown = false ∧
    (fetchOrders hitState netThrownNone).state.allSalesCache =
      hitState.allSalesCache :=
  have h := cache_hit_frame hitState netThrownNone
    (by decide) (by decide) (by decide)
  ⟨h.1, h.2.1, h.2.2.2.1⟩

/-- C2: whenever a search-mode cycle completes without a thrown error
(no toast), the displayed summary is computed over the entire filtered
list: `totalSales` is its sum of values, `totalOrders` its length, and
`avgOrderValue` their quotient (0 on an empty filtered list) — provided
the records are well-formed (numeric `total` present, as the service
interface declares). -/
theorem search_summary_consistent (s : OrdersState)
    (net : ApiRequest → NetResult)
    (h2 : 2 ≤ (jsTrim s.debouncedSearchTerm).length)
    (hnothrow : (fetchOrders s net).toasts = [])
    (hwf : ∀ x ∈ (fetchOrders s net).state.allSalesCache,
      x.total.isSome = true) :
    (fetchOrders s net).state.summary.totalSales =
      some (sumTotals (searchFilter (jsTrim s.debouncedSearchTerm)
        (fetchOrders s net).state.allSalesCache)) ∧
    (fetchOrders s net).state.summary.totalOrders =
      (searchFilter (jsTrim s.debouncedSearchTerm)
        (fetchOrders s net).state.allSalesCache).length ∧
    (fetchOrders s net).state.summary.avgOrderValue =
      (if (searchFilter (jsTrim s.debouncedSearchTerm)
          (fetchOrders s net).state.allSalesCache).length = 0 then some 0
       else some (sumTotals (searchFilter (jsTrim s.debouncedSearchTerm)
          (fetchOrders s net).state.allSalesCache) /
         ((searchFilter (jsTrim s.debouncedSearchTerm)
            (fetchOrders s net).state.allSalesCache).length : ℚ))) := by
  by_cases hmiss : s.cacheKey ≠ currentKeyOf s ∨ s.allSalesCache = []
  · cases hnet : net (baseRequest s 10000 1) with
    | ok r =>
      cases r with
      | success data =>
        rw [fetchOrders_search_miss_success s net data h2 hmiss hnet]
          at hwf ⊢
        exact finishSearch_summary _ _ _ _ hwf
      | failure msg =>
        rw [fetchOrders_search_miss_failure s net msg h2 hmiss hnet]
          at hwf ⊢
        exact finishSearch_summary _ _ _ _ hwf
    | thrown m =>
      rw [fetchOrders_search_miss_thrown s net m h2 hmiss hnet] at hnothrow
      simp at hnothrow
  · push_neg at hmiss
    obtain ⟨hkey, hne⟩ := hmiss
    rw [fetchOrders_cache_hit s net h2 hkey hne] at hwf ⊢
    exact finishSearch_summary _ _ _ _ hwf

/-- Witness for `search_summary_consistent` on the cache-hit state. -/
theorem search_summary_consistent_witness :
    (fetchOrders hitState netThrownNone).toasts = [] ∧
    (fetchOrders hitState netThrownNone).state.summary.totalSales =
      some (sumTotals (searchFilter (jsTrim hitState.debouncedSearchTerm)
        (fetchOrders hitState netThrownNone).state.allSalesCache)) :=
  ⟨by decide, (search_summary_consistent hitState netThrownNone
    (by decide) (by decide) (by decide)).1⟩

/-- C3 counterexample: a search-mode cache-miss cycle whose fetch
reports `success: false` degrades the display (empty records,
`totalPages = 1`) but emits NO failure notification — the `catch` toast
only fires on thrown errors, and the `success: false` branch is
silent.  This refutes the claim that every such failure emits a
notification together with the degradation. -/
theorem search_miss_failure_counterexample :
    missState.allSalesCache = [] ∧
    (fetchOrders missState netFailure).requests =
      [baseRequest missState 10000 1] ∧
    (fetchOrders missState netFailure).toasts = [] ∧
    (fetchOrders missState netFailure).state.orders = [] ∧
    (fetchOrders missState netFailure).state.totalPages = 1 := by
  decide

/-- C3 (amended): on a search-mode cache miss, a `success: false`
response yields the degradation (empty records, `totalPages = 1`) but no
notification, while a thrown transport error yields a notification but
leaves the previously displayed records and total pages untouched; in
both cases the cycle terminates normally (the transition function is
total — no exception propagates). -/
theorem search_miss_failure_degradation (s : OrdersState)
    (net : ApiRequest → NetResult) (msg : String) (m : Option String)
    (h2 : 2 ≤ (jsTrim s.debouncedSearchTerm).length)
    (hmiss : s.cacheKey ≠ currentKeyOf s ∨ s.allSalesCache = []) :
    (net (baseRequest s 10000 1) = NetResult.ok (ApiResponse.failure msg) →
      (fetchOrders s net).state.orders = [] ∧
      (fetchOrders s net).state.totalPages = 1 ∧
      (fetchOrders s net).toasts = []) ∧
    (net (baseRequest s 10000 1) = NetResult.thrown m →
      (fetchOrders s net).state.orders = s.orders ∧
      (fetchOrders s net).state.totalPages = s.totalPages ∧
      (fetchOrders s net).toasts = [errorToast m]) := by
  constructor
  · intro hnet
    rw [fetchOrders_search_miss_failure s net msg h2 hmiss hnet]
    refine ⟨?_, ?_, rfl⟩
    · simp [finishSearch, searchFilter]
    · simp [finishSearch, searchFilter, ITEMS_PER_PAGE]
  · intro hnet
    rw [fetchOrders_search_miss_thrown s net m h2 hmiss hnet]
    exact ⟨rfl, rfl, rfl⟩

/-- Witness for `search_miss_failure_degradation`: the thrown arm at the
concrete miss state. -/
theorem search_miss_failure_degradation_witness :
    (fetchOrders missState netThrownNone).state.orders =
      missState.orders ∧
    (fetchOrders missState netThrownNone).state.totalPages =
      missState.totalPages ∧
    (fetchOrders missState netThrownNone).toasts = [errorToast none] :=
  (search_miss_failure_degradation missState netThrownNone "x" none
    (by decide) (by decide)).2 (by decide)

/-- C4 counterexample: in server-pagination mode a `success: false`
service response produces NO toast (the `if (response.success)` guard is
simply skipped and the catch block never runs), refuting the claim that
every fetch failure surfaces a notification.  The displayed data is
indeed left unchanged. -/
theorem server_failure_no_toast_counterexample :
    (jsTrim serverState.debouncedSearchTerm).length = 0 ∧
    (fetchOrders serverState netFailure).toasts = [] ∧
    (fetchOrders serverState netFailure).state.orders =
      serverState.orders := by
  decide

/-- C4 (amended): in server-pagination mode a thrown transport error
surfaces a toast carrying the error's message (or the generic fallback
for non-`Error` values), while a `success: false` response is silently
ignored; in both cases the previously displayed records, total pages and
summary are left unchanged. -/
theorem server_mode_failure_behaviour (s : OrdersState)
    (net : ApiRequest → NetResult) (msg : String) (m : Option String)
    (hns : (jsTrim s.debouncedSearchTerm).length < 2) :
    (net (baseRequest s ITEMS_PER_PAGE s.currentPage) =
        NetResult.ok (ApiResponse.failure msg) →
      (fetchOrders s net).toasts = [] ∧
      (fetchOrders s net).state.orders = s.orders ∧
      (fetchOrders s net).state.totalPages = s.totalPages ∧
      (fetchOrders s net).state.summary = s.summary) ∧
    (net (baseRequest s ITEMS_PER_PAGE s.currentPage) =
        NetResult.thrown m →
      (fetchOrders s net).toasts = [errorToast m] ∧
      (fetchOrders s net).state.orders = s.orders ∧
      (fetchOrders s net).state.totalPages = s.totalPages ∧
      (fetchOrders s net).state.summary = s.summary) := by
  constructor
  · intro hnet
    rw [fetchOrders_server_failure s net msg hns hnet]
    exact ⟨rfl, rfl, rfl, rfl⟩
  · intro hnet
    rw [fetchOrders_server_thrown s net m hns hnet]
    exact ⟨rfl, rfl, rfl, rfl⟩

/-- Witness for `server_mode_failure_behaviour`: the thrown arm at the
concrete server-mode state. -/
theorem server_mode_failure_behaviour_witness :
    (fetchOrders serverState netThrownNone).toasts = [errorToast none] ∧
    (fetchOrders serverState netThrownNone).state.orders =
      serverState.orders ∧
    (fetchOrders serverState netThrownNone).state.totalPages =
      serverState.totalPages ∧
    (fetchOrders serverState netThrownNone).state.summary =
      serverState.summary :=
  (server_mode_failure_behaviour serverState netThrownNone "x" none
    (by decide)).2 (by decide)

/-- C6 counterexample: a successful server-pagination response carrying
`pagination.totalPages = 0` is displayed as `1`, not taken from the
response: the JS `|| 1` default also replaces a present-but-zero
value. -/
theorem server_totalPages_zero_counterexample :
    zeroTotalPagesData.paginationTotalPages = some 0 ∧
    (fetchOrders serverState netZeroTotalPages).state.totalPages = 1 := by
  decide

/-- C6 (amended): in server-pagination mode the fetch carries the scope
filters, the fixed page size and the current page; on success the
returned page is displayed verbatim, the server summary is displayed
verbatim (all-zero when absent), `totalPages` is taken from the response
except that an absent OR zero value becomes 1, the cached full set is
cleared and the scope key is recorded. -/
theorem server_mode_success_behaviour (s : OrdersState)
    (net : ApiRequest → NetResult) (data : ApiData) (l : List Sale)
    (hns : (jsTrim s.debouncedSearchTerm).length < 2)
    (hnet : net (baseRequest s ITEMS_PER_PAGE s.currentPage) =
      NetResult.ok (ApiResponse.success data))
    (hsales : data.sales = some l) :
    (fetchOrders s net).requests =
      [baseRequest s ITEMS_PER_PAGE s.currentPage] ∧
    (fetchOrders s net).state.orders = l ∧
    (fetchOrders s net).state.summary = data.summary.getD zeroSummary ∧
    (fetchOrders s net).state.totalPages =
      (match data.paginationTotalPages with
       | none => 1
       | some 0 => 1
       | some (k + 1) => k + 1) ∧
    (fetchOrders s net).state.allSalesCache = [] ∧
    (fetchOrders s net).state.cacheKey = currentKeyOf s := by
  rw [fetchOrders_server_success s net data hns hnet]
  refine ⟨rfl, by simp [hsales], rfl, ?_, rfl, rfl⟩
  rcases data.paginationTotalPages with _ | n
  · rfl
  · cases n
    · rfl
    · rfl

/-- Witness for `server_mode_success_behaviour` on a concrete successful
response. -/
theorem server_mode_success_behaviour_witness :
    (fetchOrders serverState netSuccess).requests =
      [baseRequest serverState ITEMS_PER_PAGE serverState.currentPage] ∧
    (fetchOrders serverState netSuccess).state.orders = [saleBob] ∧
    (fetchOrders serverState netSuccess).state.totalPages = 4 :=
  have h := server_mode_success_behaviour serverState netSuccess sampleData
    [saleBob] (by decide) (by decide) (by decide)
  ⟨h.1, h.2.1, by rw [h.2.2.2.1]; rfl⟩
